import Mathlib

/-!
Verification of the sigmoid bonding-curve numeric core
(src/stylus/src/lib.rs) against its natural-language specification.

U256 values are embedded as `Nat` together with explicit saturating /
wrapping operations at the 2^256 boundary.  All definitions are
transcribed from the Rust source; the `_spec`-suffixed definitions are
transcriptions of the specification reference algorithms, used for
refinement claims.
-/

namespace PumpUp

/-- Largest value representable in a `U256`. -/
def U256_MAX : Nat := 2 ^ 256 - 1

/-- Modulus of `U256` arithmetic. -/
def U256_MOD : Nat := 2 ^ 256

/-- `SCALE_FACTOR` from the source: fixed-point scale, `10^18`. -/
def SCALE_FACTOR : Nat := 1000000000000000000

/-- `TWO` from the source. -/
def TWO : Nat := 2

/-- `THOUSAND` from the source. -/
def THOUSAND : Nat := 1000

/-- `MILLION` from the source. -/
def MILLION : Nat := 1000000

/-- `DEFAULT_MAX_PRICE_FACTOR` from the source: 10.0 fixed-point. -/
def DEFAULT_MAX_PRICE_FACTOR : Nat := 10000000000000000000

/-- `DEFAULT_STEEPNESS` from the source: 10.0 fixed-point. -/
def DEFAULT_STEEPNESS : Nat := 10000000000000000000

/-- `DEFAULT_MIDPOINT` from the source: 0.5 fixed-point. -/
def DEFAULT_MIDPOINT : Nat := 500000000000000000

/-- `U256::saturating_add`. -/
def satAdd (a b : Nat) : Nat := min (a + b) U256_MAX

/-- `U256::saturating_sub` (truncated subtraction, as in `Nat`). -/
def satSub (a b : Nat) : Nat := a - b

/-- `U256::saturating_mul`. -/
def satMul (a b : Nat) : Nat := min (a * b) U256_MAX

/-- Plain (wrapping, release-mode) `U256` multiplication. -/
def wrapMul (a b : Nat) : Nat := a * b % U256_MOD

/-- Plain (wrapping, release-mode) `U256` addition. -/
def wrapAdd (a b : Nat) : Nat := (a + b) % U256_MOD

/-- `CurveParameters` storage structure from the source. -/
structure CurveParameters where
  initial_price : Nat
  max_price_factor : Nat
  steepness : Nat
  midpoint : Nat
  total_supply : Nat
deriving DecidableEq, Repr

/-- `multiply_fixed_point` from the source (lines 787-800):
returns 0 if either operand is zero, `U256::MAX` if `a * b` would
overflow (tested via `a > U256::MAX / b`), else `a * b / SCALE_FACTOR`. -/
def multiply_fixed_point (a b : Nat) : Nat :=
  if a = 0 ∨ b = 0 then 0
  else if a > U256_MAX / b then U256_MAX
  else satMul a b / SCALE_FACTOR

/-- `divide_fixed_point` from the source (lines 802-814):
returns 0 when `b = 0`; if `a * SCALE_FACTOR` would overflow it falls
back to `a / b * SCALE_FACTOR` (plain wrapping multiplication), else
computes `a.saturating_mul(SCALE_FACTOR) / b`. -/
def divide_fixed_point (a b : Nat) : Nat :=
  if b = 0 then 0
  else if a > U256_MAX / SCALE_FACTOR then wrapMul (a / b) SCALE_FACTOR
  else satMul a SCALE_FACTOR / b

/-- The Taylor-series loop of `exp_approx` (source lines 753-773).
One call evaluates at most `fuel` iterations, with `i` the Rust loop
counter.  `fact` is the (dead) `factorial` accumulator kept by the
source. -/
def exp_loop (x : Nat) : Nat → Nat → Nat → Nat → Nat → Nat
  | _term, result, _fact, _i, 0 => result
  | term, result, fact, i, fuel + 1 =>
    let fact2 := satMul fact i
    let term2 := multiply_fixed_point term x / i
    let result2 := satAdd result term2
    if term2 < SCALE_FACTOR / MILLION then result2
    else exp_loop x term2 result2 fact2 (i + 1) fuel

/-- `exp_approx` from the source (lines 741-776). -/
def exp_approx (x : Nat) : Nat :=
  if x = 0 then SCALE_FACTOR
  else if x > satMul 50 SCALE_FACTOR then U256_MAX / TWO
  else exp_loop x SCALE_FACTOR SCALE_FACTOR 1 1 14

/-- `calculate_sigmoid_price` from the source (lines 597-654). -/
def calculate_sigmoid_price (supply : Nat) (params : CurveParameters) : Nat :=
  if supply = 0 then params.initial_price
  else
    let percentage_sold :=
      if params.total_supply = 0 then SCALE_FACTOR
      else divide_fixed_point (satMul supply SCALE_FACTOR) params.total_supply
    let max_price := multiply_fixed_point params.initial_price params.max_price_factor
    let price_range := satSub max_price params.initial_price
    if percentage_sold < params.midpoint then
      let midpoint_diff := satSub params.midpoint percentage_sold
      let exponent_term := multiply_fixed_point params.steepness midpoint_diff
      let exp_value := exp_approx exponent_term
      let denominator := satAdd SCALE_FACTOR exp_value
      satAdd params.initial_price (divide_fixed_point price_range denominator)
    else
      let midpoint_diff := satSub percentage_sold params.midpoint
      let exponent_term := multiply_fixed_point params.steepness midpoint_diff
      let exp_value := exp_approx exponent_term
      let denominator :=
        if exp_value = 0 then satMul SCALE_FACTOR 1000
        else satAdd SCALE_FACTOR (divide_fixed_point SCALE_FACTOR exp_value)
      satAdd params.initial_price (divide_fixed_point price_range denominator)

/-- `calculate_weth_for_token_amount` from the source (lines 657-678):
two-point trapezoid estimate of the cost of moving the supply. -/
def calculate_weth_for_token_amount (current_supply token_amount : Nat)
    (params : CurveParameters) (is_selling : Bool) : Nat :=
  let new_supply :=
    if is_selling then satSub current_supply token_amount
    else satAdd current_supply token_amount
  let start_price := calculate_sigmoid_price current_supply params
  let end_price := calculate_sigmoid_price new_supply params
  let sum_prices := satAdd start_price end_price
  multiply_fixed_point sum_prices token_amount / TWO

/-- The bisection loop of `find_token_amount_for_weth`
(source lines 701-734), with explicit fuel (the source runs it with
fuel 100). -/
def find_loop (current_supply weth_amount : Nat) (params : CurveParameters)
    (is_selling : Bool) : Nat → Nat → Nat → Nat
  | min_tokens, _max_tokens, 0 => min_tokens
  | min_tokens, max_tokens, fuel + 1 =>
    if max_tokens = min_tokens then min_tokens
    else
      let mid_tokens := satAdd min_tokens (satSub max_tokens min_tokens / TWO)
      let weth_needed :=
        calculate_weth_for_token_amount current_supply mid_tokens params is_selling
      let diff :=
        if weth_needed ≥ weth_amount then satSub weth_needed weth_amount
        else satSub weth_amount weth_needed
      if diff ≤ SCALE_FACTOR / THOUSAND then mid_tokens
      else if weth_needed < weth_amount then
        find_loop current_supply weth_amount params is_selling mid_tokens max_tokens fuel
      else
        find_loop current_supply weth_amount params is_selling min_tokens mid_tokens fuel

/-- `find_token_amount_for_weth` from the source (lines 681-738). -/
def find_token_amount_for_weth (current_supply weth_amount : Nat)
    (params : CurveParameters) (is_selling : Bool) : Nat :=
  let max_tokens :=
    if is_selling then current_supply
    else satSub params.total_supply current_supply
  find_loop current_supply weth_amount params is_selling 0 max_tokens 100

/-- Error kinds surfaced by the contract entry points (the source
reports them as byte strings; they are modelled as an enumeration). -/
inductive CurveError where
  | notPoolStateManager
  | badParamsLength
  | zeroParams
  | dataTooShort
  | poolTransitioned
  | invalidAmount
  | invalidPoolId
  | insufficientLiquidity
deriving DecidableEq, Repr

/-- `calculate_buy` from the source (lines 159-242), with the external
collaborators (pool registry, token ledger) abstracted into the
`is_transitioned` flag and the circulating supply, exactly the values
the source derives from them before any arithmetic. -/
def calculate_buy (circulating_supply weth_amount : Nat)
    (is_transitioned : Bool) (params : CurveParameters) :
    Except CurveError (Nat × Nat) :=
  if is_transitioned then .error .poolTransitioned
  else if weth_amount = 0 then .error .invalidAmount
  else if params.initial_price = 0 then .error .invalidPoolId
  else if circulating_supply = 0 then
    .ok (divide_fixed_point weth_amount params.initial_price, params.initial_price)
  else
    let token_amount := find_token_amount_for_weth circulating_supply weth_amount params false
    let new_circulating_supply := wrapAdd circulating_supply token_amount
    .ok (token_amount, calculate_sigmoid_price new_circulating_supply params)

/-- `calculate_sell` from the source (lines 245-311), abstracted over
the externally queried pool state the same way as `calculate_buy`. -/
def calculate_sell (circulating_supply weth_collected token_amount : Nat)
    (is_transitioned : Bool) (params : CurveParameters) :
    Except CurveError (Nat × Nat) :=
  if is_transitioned then .error .poolTransitioned
  else if token_amount = 0 then .error .invalidAmount
  else if params.initial_price = 0 then .error .invalidPoolId
  else if token_amount > circulating_supply then .error .invalidAmount
  else
    let weth_to_return :=
      calculate_weth_for_token_amount circulating_supply token_amount params true
    if weth_to_return > weth_collected then .error .insufficientLiquidity
    else
      let new_circulating_supply := circulating_supply - token_amount
      .ok (weth_to_return, calculate_sigmoid_price new_circulating_supply params)

/-- Big-endian interpretation of a byte list, as in
`U256::from_be_bytes`. -/
def beBytesToNat (bs : List Nat) : Nat :=
  bs.foldl (fun acc b => acc * 256 + b) 0

/-- `extract_u256_from_bytes` from the source (lines 818-827). -/
def extract_u256_from_bytes (data : List Nat) (offset : Nat) :
    Except CurveError Nat :=
  if data.length < offset + 32 then .error .dataTooShort
  else .ok (beBytesToNat ((data.drop offset).take 32))

/-- Contract storage (`sol_storage!` block, source lines 38-54):
the five per-pool parameter mappings plus owner and pool state
manager.  Mappings default to zero, as Solidity storage does. -/
structure Store where
  owner : Nat
  pool_state_manager : Nat
  initial_prices : Nat → Nat
  max_price_factors : Nat → Nat
  steepness_values : Nat → Nat
  midpoints : Nat → Nat
  total_supplies : Nat → Nat

/-- The `initialize` entry point from the source (lines 75-156):
authorization check, length check, five big-endian field decodes,
zero checks on `initial_price` / `total_supply`, defaulting of the
optional fields, then the five storage writes. -/
def init_pool (sender : Nat) (s : Store) (pool_id : Nat)
    (params_bytes : List Nat) : Except CurveError Store :=
  if sender ≠ s.owner then .error .notPoolStateManager
  else if params_bytes.length < 160 then .error .badParamsLength
  else
    match extract_u256_from_bytes params_bytes 0,
          extract_u256_from_bytes params_bytes 32,
          extract_u256_from_bytes params_bytes 64,
          extract_u256_from_bytes params_bytes 96,
          extract_u256_from_bytes params_bytes 128 with
    | .error e, _, _, _, _ => .error e
    | _, .error e, _, _, _ => .error e
    | _, _, .error e, _, _ => .error e
    | _, _, _, .error e, _ => .error e
    | _, _, _, _, .error e => .error e
    | .ok initial_price, .ok max_price_factor, .ok steepness,
        .ok midpoint, .ok total_supply =>
      if total_supply = 0 ∨ initial_price = 0 then .error .zeroParams
      else
        let max_price_factor :=
          if max_price_factor = 0 then DEFAULT_MAX_PRICE_FACTOR else max_price_factor
        let steepness := if steepness = 0 then DEFAULT_STEEPNESS else steepness
        let midpoint := if midpoint = 0 then DEFAULT_MIDPOINT else midpoint
        .ok { s with
              initial_prices := fun p => if p = pool_id then initial_price else s.initial_prices p
              max_price_factors := fun p => if p = pool_id then max_price_factor else s.max_price_factors p
              steepness_values := fun p => if p = pool_id then steepness else s.steepness_values p
              midpoints := fun p => if p = pool_id then midpoint else s.midpoints p
              total_supplies := fun p => if p = pool_id then total_supply else s.total_supplies p }

/-- The exposed (`#[public]`) operations of the contract.  The quoting
operations (`calculate_buy`, `calculate_sell`, `get_current_price`,
`calculate_weth_for_exact_tokens`, `calculate_tokens_for_exact_weth`)
and the identification getters contain no storage writes in the
source, so a single constructor stands for each of them here. -/
inductive Op where
  | opConstructor (sender psm : Nat)
  | opInitPool (sender pool_id : Nat) (params_bytes : List Nat)
  | opSetPoolStateManager (sender new_psm : Nat)
  | opTransferOwnership (sender new_owner : Nat)
  | opCalculateBuy
  | opCalculateSell
  | opGetCurrentPrice
  | opCalculateWethForExactTokens
  | opCalculateTokensForExactWeth
  | opStrategyType
  | opStrategyName
  | opGetOwner

/-- Storage effect of each exposed operation (failed calls leave
storage unchanged; the source performs its writes only after all
checks pass). -/
def step (s : Store) : Op → Store
  | .opConstructor sender psm => { s with owner := sender, pool_state_manager := psm }
  | .opInitPool sender pool_id bs =>
    match init_pool sender s pool_id bs with
    | .ok s2 => s2
    | .error _ => s
  | .opSetPoolStateManager sender new_psm =>
    if sender = s.owner then { s with pool_state_manager := new_psm } else s
  | .opTransferOwnership sender new_owner =>
    if sender = s.owner ∧ new_owner ≠ 0 then { s with owner := new_owner } else s
  | _ => s

/-- The five stored curve-parameter values for one pool. -/
def paramsAt (s : Store) (pool_id : Nat) : Nat × Nat × Nat × Nat × Nat :=
  (s.initial_prices pool_id, s.max_price_factors pool_id,
   s.steepness_values pool_id, s.midpoints pool_id, s.total_supplies pool_id)

/-- Reference series loop transcribed from the specification words
(§4.2), for the refinement claim about `exp_approx`: for `i` from 1,
`term = scaled_mul(term, x) / i` (plain integer division by the
iteration count), added to `result`, stopping early once
`term < SCALE / 1_000_000`. -/
def exp_spec_loop (x : Nat) : Nat → Nat → Nat → Nat → Nat
  | _term, result, _i, 0 => result
  | term, result, i, fuel + 1 =>
    let term2 := multiply_fixed_point term x / i
    let result2 := satAdd result term2
    if term2 < SCALE_FACTOR / 1000000 then result2
    else exp_spec_loop x term2 result2 (i + 1) fuel

/-- Reference exponential transcribed from the specification words
(§4.2): exactly `SCALE` at `x = 0`, the saturating sentinel
`U256::MAX / 2` for `x > 50 * SCALE`, otherwise the truncated series
with `i` running from 1 to 14. -/
def exp_spec (x : Nat) : Nat :=
  if x = 0 then SCALE_FACTOR
  else if x > 50 * SCALE_FACTOR then U256_MAX / 2
  else exp_spec_loop x SCALE_FACTOR SCALE_FACTOR 1 14

/-- Reference bisection loop transcribed from the specification
words (§4.5): each step computes `mid = min + (max - min) / 2` and the
cost at `mid`; returns `mid` as soon as the cost residual is within
tolerance `SCALE / 1000`; returns the bracket value when the bracket
has collapsed (`min == max`); otherwise moves `min` up when the cost
is below target and `max` down when it is above. -/
def solve_spec_loop (current_supply target_cost : Nat) (params : CurveParameters)
    (is_selling : Bool) : Nat → Nat → Nat → Nat
  | min_t, _max_t, 0 => min_t
  | min_t, max_t, fuel + 1 =>
    let mid := min_t + (max_t - min_t) / 2
    let c := calculate_weth_for_token_amount current_supply mid params is_selling
    let diff := if c ≥ target_cost then c - target_cost else target_cost - c
    if diff ≤ SCALE_FACTOR / 1000 then mid
    else if min_t = max_t then min_t
    else if c < target_cost then
      solve_spec_loop current_supply target_cost params is_selling mid max_t fuel
    else
      solve_spec_loop current_supply target_cost params is_selling min_t mid fuel

/-- Reference amount solver transcribed from the specification
words (§4.5): bracket `[0, current_supply]` when selling,
`[0, total_supply - current_supply]` when buying, up to 100
iterations, returning `min` as the best-effort answer on exhaustion. -/
def solve_spec (current_supply target_cost : Nat) (params : CurveParameters)
    (is_selling : Bool) : Nat :=
  let max_t :=
    if is_selling then current_supply
    else params.total_supply - current_supply
  solve_spec_loop current_supply target_cost params is_selling 0 max_t 100

/-- Supply value at the precision-fallback threshold of
`divide_fixed_point`: the largest supply whose scaled numerator stays
in the precise branch. -/
def s0cex : Nat := U256_MAX / SCALE_FACTOR ^ 2

/-- A total supply exhibiting the monotonicity break of
`calculate_sigmoid_price` right at the fallback threshold. -/
def tsCex : Nat := 2 * s0cex * SCALE_FACTOR / 3

/-- Curve parameters witnessing the monotonicity break. -/
def paramsCex : CurveParameters :=
  ⟨SCALE_FACTOR, 10 * SCALE_FACTOR, 10 * SCALE_FACTOR, SCALE_FACTOR / 2, tsCex⟩

/-- A 160-byte parameter block with `initial_price = 1`,
`total_supply = 1` and zero optional fields. -/
def bytesIpOne : List Nat :=
  List.replicate 31 0 ++ [1] ++ List.replicate 96 0 ++ List.replicate 31 0 ++ [1]

/-- A 160-byte parameter block like `bytesIpOne` but with
`initial_price = 2`. -/
def bytesIpTwo : List Nat :=
  List.replicate 31 0 ++ [2] ++ List.replicate 96 0 ++ List.replicate 31 0 ++ [1]

/-- An empty deployed store with owner 7 and pool state manager 8. -/
def store0 : Store :=
  ⟨7, 8, fun _ => 0, fun _ => 0, fun _ => 0, fun _ => 0, fun _ => 0⟩

/-- `store0` after a successful first creation of pool 0. -/
def store1 : Store := step store0 (.opInitPool 7 0 bytesIpOne)

/-- Whether an exposed operation is the creation entry point. -/
def Op.isCreate : Op → Bool
  | .opInitPool _ _ _ => true
  | _ => false

/-! ### Basic facts about the saturating primitives -/

theorem scale_pos : 0 < SCALE_FACTOR := by decide

theorem scale_le_max : SCALE_FACTOR ≤ U256_MAX := by decide

theorem satAdd_le_max (a b : Nat) : satAdd a b ≤ U256_MAX :=
  min_le_right _ _

theorem satAdd_le_sum (a b : Nat) : satAdd a b ≤ a + b :=
  min_le_left _ _

theorem le_satAdd_left (a b : Nat) (ha : a ≤ U256_MAX) : a ≤ satAdd a b :=
  le_min (Nat.le_add_right a b) ha

theorem satAdd_mono {a1 a2 b1 b2 : Nat} (h1 : a1 ≤ a2) (h2 : b1 ≤ b2) :
    satAdd a1 b1 ≤ satAdd a2 b2 :=
  min_le_min (Nat.add_le_add h1 h2) le_rfl

theorem satMul_le_max (a b : Nat) : satMul a b ≤ U256_MAX :=
  min_le_right _ _

theorem satMul_eq (a b : Nat) (h : a * b ≤ U256_MAX) : satMul a b = a * b :=
  min_eq_left h

theorem mod_succ_max : U256_MOD = U256_MAX + 1 := by decide

theorem mod_eq_of_le_max {x : Nat} (h : x ≤ U256_MAX) : x % U256_MOD = x :=
  Nat.mod_eq_of_lt (by have e := mod_succ_max; omega)

theorem wrapMul_le_max (a b : Nat) : wrapMul a b ≤ U256_MAX := by
  unfold wrapMul
  have h : a * b % U256_MOD < U256_MOD := Nat.mod_lt _ (by decide)
  have e := mod_succ_max
  omega

/-! ### Facts about `multiply_fixed_point` -/

theorem mulfp_pos_branch (a b : Nat) (ha : a ≠ 0) (hb : b ≠ 0) :
    multiply_fixed_point a b =
      if a > U256_MAX / b then U256_MAX else satMul a b / SCALE_FACTOR := by
  unfold multiply_fixed_point
  rw [if_neg (show ¬ (a = 0 ∨ b = 0) by push_neg; exact ⟨ha, hb⟩)]

theorem mulfp_le_max (a b : Nat) : multiply_fixed_point a b ≤ U256_MAX := by
  unfold multiply_fixed_point
  split
  · exact Nat.zero_le _
  split
  · exact le_rfl
  · exact le_trans (Nat.div_le_self _ _) (satMul_le_max a b)

theorem mulfp_eq_of_no_overflow (a b : Nat) (h : a * b ≤ U256_MAX) :
    multiply_fixed_point a b = a * b / SCALE_FACTOR := by
  unfold multiply_fixed_point
  rcases Decidable.em (a = 0 ∨ b = 0) with hz | hz
  · rw [if_pos hz]
    rcases hz with hz | hz <;> simp [hz]
  · rw [if_neg hz]
    push_neg at hz
    have hb : 0 < b := Nat.pos_of_ne_zero hz.2
    have : ¬ a > U256_MAX / b := by
      rw [not_lt, Nat.le_div_iff_mul_le hb]
      exact h
    rw [if_neg this, satMul_eq a b h]

theorem mulfp_mono_right (a : Nat) {b1 b2 : Nat} (h : b1 ≤ b2) :
    multiply_fixed_point a b1 ≤ multiply_fixed_point a b2 := by
  unfold multiply_fixed_point
  rcases Decidable.em (a = 0 ∨ b1 = 0) with hz | hz
  · rw [if_pos hz]
    exact Nat.zero_le _
  push_neg at hz
  obtain ⟨ha, hb1z⟩ := hz
  have hb1 : 0 < b1 := Nat.pos_of_ne_zero hb1z
  have hb2z : b2 ≠ 0 := by omega
  have hb2 : 0 < b2 := Nat.pos_of_ne_zero hb2z
  rw [if_neg (show ¬ (a = 0 ∨ b1 = 0) by push_neg; exact ⟨ha, hb1z⟩),
      if_neg (show ¬ (a = 0 ∨ b2 = 0) by push_neg; exact ⟨ha, hb2z⟩)]
  rcases Decidable.em (a > U256_MAX / b1) with ho1 | ho1
  · have ho2 : a > U256_MAX / b2 :=
      lt_of_le_of_lt (Nat.div_le_div_left h hb1) ho1
    rw [if_pos ho1, if_pos ho2]
  · rw [if_neg ho1]
    have h1 : a * b1 ≤ U256_MAX := (Nat.le_div_iff_mul_le hb1).mp (not_lt.mp ho1)
    rcases Decidable.em (a > U256_MAX / b2) with ho2 | ho2
    · rw [if_pos ho2]
      exact le_trans (Nat.div_le_self _ _) (satMul_le_max a b1)
    · rw [if_neg ho2]
      have h2 : a * b2 ≤ U256_MAX := (Nat.le_div_iff_mul_le hb2).mp (not_lt.mp ho2)
      rw [satMul_eq a b1 h1, satMul_eq a b2 h2]
      exact Nat.div_le_div_right (Nat.mul_le_mul_left a h)

theorem mulfp_mono_left {a1 a2 : Nat} (b : Nat) (h : a1 ≤ a2) :
    multiply_fixed_point a1 b ≤ multiply_fixed_point a2 b := by
  unfold multiply_fixed_point
  rcases Decidable.em (a1 = 0 ∨ b = 0) with hz | hz
  · rw [if_pos hz]
    exact Nat.zero_le _
  push_neg at hz
  obtain ⟨ha1, hbz⟩ := hz
  have ha2 : a2 ≠ 0 := by omega
  have hb : 0 < b := Nat.pos_of_ne_zero hbz
  rw [if_neg (show ¬ (a1 = 0 ∨ b = 0) by push_neg; exact ⟨ha1, hbz⟩),
      if_neg (show ¬ (a2 = 0 ∨ b = 0) by push_neg; exact ⟨ha2, hbz⟩)]
  rcases Decidable.em (a1 > U256_MAX / b) with ho1 | ho1
  · rw [if_pos ho1, if_pos (lt_of_lt_of_le ho1 h)]
  · rw [if_neg ho1]
    have h1 : a1 * b ≤ U256_MAX := (Nat.le_div_iff_mul_le hb).mp (not_lt.mp ho1)
    rcases Decidable.em (a2 > U256_MAX / b) with ho2 | ho2
    · rw [if_pos ho2]
      exact le_trans (Nat.div_le_self _ _) (satMul_le_max a1 b)
    · rw [if_neg ho2]
      have h2 : a2 * b ≤ U256_MAX := (Nat.le_div_iff_mul_le hb).mp (not_lt.mp ho2)
      rw [satMul_eq a1 b h1, satMul_eq a2 b h2]
      exact Nat.div_le_div_right (Nat.mul_le_mul_right b h)

/-! ### Facts about `divide_fixed_point` -/

theorem dfp_precise (a b : Nat) (ha : a ≤ U256_MAX / SCALE_FACTOR) (hb : b ≠ 0) :
    divide_fixed_point a b = a * SCALE_FACTOR / b := by
  unfold divide_fixed_point
  rw [if_neg hb, if_neg (not_lt.mpr ha)]
  have : a * SCALE_FACTOR ≤ U256_MAX := by
    calc a * SCALE_FACTOR ≤ U256_MAX / SCALE_FACTOR * SCALE_FACTOR :=
          Nat.mul_le_mul_right _ ha
      _ ≤ U256_MAX := Nat.div_mul_le_self _ _
  rw [satMul_eq _ _ this]

theorem dfp_le_max (a b : Nat) : divide_fixed_point a b ≤ U256_MAX := by
  unfold divide_fixed_point
  split
  · exact Nat.zero_le _
  split
  · exact wrapMul_le_max _ _
  · exact le_trans (Nat.div_le_self _ _) (satMul_le_max _ _)

theorem dfp_anti (a : Nat) {b1 b2 : Nat} (ha : a ≤ U256_MAX)
    (hb1 : SCALE_FACTOR ≤ b1) (h : b1 ≤ b2) :
    divide_fixed_point a b2 ≤ divide_fixed_point a b1 := by
  have hb2 : SCALE_FACTOR ≤ b2 := le_trans hb1 h
  have hb1p : 0 < b1 := lt_of_lt_of_le scale_pos hb1
  have hb2p : 0 < b2 := lt_of_lt_of_le scale_pos hb2
  unfold divide_fixed_point
  rw [if_neg (show ¬ b2 = 0 by omega), if_neg (show ¬ b1 = 0 by omega)]
  rcases Decidable.em (a > U256_MAX / SCALE_FACTOR) with ho | ho
  · rw [if_pos ho, if_pos ho]
    unfold wrapMul
    have key : ∀ b : Nat, SCALE_FACTOR ≤ b → a / b * SCALE_FACTOR ≤ U256_MAX := by
      intro b hb
      calc a / b * SCALE_FACTOR ≤ a / SCALE_FACTOR * SCALE_FACTOR :=
            Nat.mul_le_mul_right _ (Nat.div_le_div_left hb scale_pos)
        _ ≤ U256_MAX / SCALE_FACTOR * SCALE_FACTOR :=
            Nat.mul_le_mul_right _ (Nat.div_le_div_right ha)
        _ ≤ U256_MAX := Nat.div_mul_le_self _ _
    have m1 := mod_eq_of_le_max (key b1 hb1)
    have m2 := mod_eq_of_le_max (key b2 hb2)
    rw [m1, m2]
    exact Nat.mul_le_mul_right _ (Nat.div_le_div_left h hb1p)
  · rw [if_neg ho, if_neg ho]
    push_neg at ho
    have hsm : a * SCALE_FACTOR ≤ U256_MAX := by
      calc a * SCALE_FACTOR ≤ U256_MAX / SCALE_FACTOR * SCALE_FACTOR :=
            Nat.mul_le_mul_right _ ho
        _ ≤ U256_MAX := Nat.div_mul_le_self _ _
    rw [satMul_eq _ _ hsm]
    exact Nat.div_le_div_left h hb1p

theorem dfp_scale_num (e : Nat) (he : e ≠ 0) :
    divide_fixed_point SCALE_FACTOR e = SCALE_FACTOR * SCALE_FACTOR / e :=
  dfp_precise SCALE_FACTOR e (by decide) he

/-! ### Facts about `exp_approx` -/

theorem satmul_50_scale : satMul 50 SCALE_FACTOR = 50 * SCALE_FACTOR := by decide

theorem exp_loop_fact_irrel (x : Nat) (fuel : Nat) :
    ∀ term result fact1 fact2 i,
      exp_loop x term result fact1 i fuel = exp_loop x term result fact2 i fuel := by
  induction fuel with
  | zero => intro t r f1 f2 i; rfl
  | succ n ih =>
    intro t r f1 f2 i
    simp only [exp_loop]
    split
    · rfl
    · exact ih _ _ _ _ _

theorem le_exp_loop (x : Nat) (fuel : Nat) :
    ∀ term result fact i, result ≤ U256_MAX →
      result ≤ exp_loop x term result fact i fuel := by
  induction fuel with
  | zero => intro t r f i _; exact le_rfl
  | succ n ih =>
    intro t r f i h
    simp only [exp_loop]
    split
    · exact le_satAdd_left r _ h
    · exact le_trans (le_satAdd_left r _ h) (ih _ _ _ _ (satAdd_le_max _ _))

theorem exp_loop_le_max (x : Nat) (fuel : Nat) :
    ∀ term result fact i, result ≤ U256_MAX →
      exp_loop x term result fact i fuel ≤ U256_MAX := by
  induction fuel with
  | zero => intro t r f i h; exact h
  | succ n ih =>
    intro t r f i _
    simp only [exp_loop]
    split
    · exact satAdd_le_max _ _
    · exact ih _ _ _ _ (satAdd_le_max _ _)

theorem exp_loop_mono (x1 x2 : Nat) (hx : x1 ≤ x2) (fuel : Nat) :
    ∀ i t1 t2 r1 r2 f1 f2, t1 ≤ t2 → r1 ≤ r2 → r2 ≤ U256_MAX →
      exp_loop x1 t1 r1 f1 i fuel ≤ exp_loop x2 t2 r2 f2 i fuel := by
  induction fuel with
  | zero => intro i t1 t2 r1 r2 f1 f2 _ hr _; exact hr
  | succ n ih =>
    intro i t1 t2 r1 r2 f1 f2 ht hr hr2
    simp only [exp_loop]
    have hterm : multiply_fixed_point t1 x1 / i ≤ multiply_fixed_point t2 x2 / i :=
      Nat.div_le_div_right (le_trans (mulfp_mono_left x1 ht) (mulfp_mono_right t2 hx))
    have hres : satAdd r1 (multiply_fixed_point t1 x1 / i) ≤
        satAdd r2 (multiply_fixed_point t2 x2 / i) := satAdd_mono hr hterm
    by_cases h1 : multiply_fixed_point t1 x1 / i < SCALE_FACTOR / MILLION
    · rw [if_pos h1]
      by_cases h2 : multiply_fixed_point t2 x2 / i < SCALE_FACTOR / MILLION
      · rw [if_pos h2]
        exact hres
      · rw [if_neg h2]
        exact le_trans hres (le_exp_loop x2 n _ _ _ _ (satAdd_le_max _ _))
    · rw [if_neg h1,
          if_neg (show ¬ multiply_fixed_point t2 x2 / i < SCALE_FACTOR / MILLION by
            have := not_lt.mp h1; omega)]
      exact ih _ _ _ _ _ _ _ hterm hres (satAdd_le_max _ _)

theorem exp_loop_bound (x : Nat) (hx : x ≤ 50 * SCALE_FACTOR) (fuel : Nat) :
    ∀ term result fact i,
      term * 50 ^ fuel * (50 * SCALE_FACTOR) ≤ U256_MAX →
      exp_loop x term result fact i fuel ≤ result + fuel * (term * 50 ^ fuel) := by
  induction fuel with
  | zero => intro t r f i _; simp [exp_loop]
  | succ n ih =>
    intro t r f i hbound
    simp only [exp_loop]
    have hpow : (50:Nat) ≤ 50 ^ (n + 1) := by
      calc (50:Nat) = 50 ^ 1 := (pow_one 50).symm
        _ ≤ 50 ^ (n + 1) := Nat.pow_le_pow_right (by norm_num) (by omega)
    have htx : t * x ≤ U256_MAX := by
      calc t * x ≤ t * (50 * SCALE_FACTOR) := Nat.mul_le_mul_left t hx
        _ ≤ t * 50 ^ (n + 1) * (50 * SCALE_FACTOR) :=
            Nat.mul_le_mul_right _ (Nat.le_mul_of_pos_right t (by positivity))
        _ ≤ U256_MAX := hbound
    have ht2 : multiply_fixed_point t x / i ≤ t * 50 := by
      rw [mulfp_eq_of_no_overflow t x htx]
      calc t * x / SCALE_FACTOR / i ≤ t * x / SCALE_FACTOR := Nat.div_le_self _ _
        _ ≤ t * (50 * SCALE_FACTOR) / SCALE_FACTOR :=
            Nat.div_le_div_right (Nat.mul_le_mul_left t hx)
        _ = t * 50 := by
            rw [← Nat.mul_assoc]
            exact Nat.mul_div_cancel _ scale_pos
    have hA : t * 50 ≤ t * 50 ^ (n + 1) := Nat.mul_le_mul_left t hpow
    by_cases hb : multiply_fixed_point t x / i < SCALE_FACTOR / MILLION
    · rw [if_pos hb]
      have h1 : multiply_fixed_point t x / i ≤ t * 50 ^ (n + 1) := le_trans ht2 hA
      have h2 : t * 50 ^ (n + 1) ≤ (n + 1) * (t * 50 ^ (n + 1)) :=
        Nat.le_mul_of_pos_left _ (by omega)
      have h3 := satAdd_le_sum r (multiply_fixed_point t x / i)
      omega
    · rw [if_neg hb]
      have hbound2 : multiply_fixed_point t x / i * 50 ^ n * (50 * SCALE_FACTOR) ≤ U256_MAX := by
        calc multiply_fixed_point t x / i * 50 ^ n * (50 * SCALE_FACTOR)
            ≤ t * 50 * 50 ^ n * (50 * SCALE_FACTOR) :=
              Nat.mul_le_mul_right _ (Nat.mul_le_mul_right _ ht2)
          _ = t * 50 ^ (n + 1) * (50 * SCALE_FACTOR) := by ring
          _ ≤ U256_MAX := hbound
      have hrec := ih (multiply_fixed_point t x / i)
        (satAdd r (multiply_fixed_point t x / i)) (satMul f i) (i + 1) hbound2
      have hsum := satAdd_le_sum r (multiply_fixed_point t x / i)
      have e1 : multiply_fixed_point t x / i * 50 ^ n ≤ t * 50 ^ (n + 1) := by
        calc multiply_fixed_point t x / i * 50 ^ n ≤ t * 50 * 50 ^ n :=
              Nat.mul_le_mul_right _ ht2
          _ = t * 50 ^ (n + 1) := by ring
      have e2 : n * (multiply_fixed_point t x / i * 50 ^ n) ≤ n * (t * 50 ^ (n + 1)) :=
        Nat.mul_le_mul_left n e1
      have e3 : multiply_fixed_point t x / i ≤ t * 50 ^ (n + 1) := le_trans ht2 hA
      have goalstep : (n + 1) * (t * 50 ^ (n + 1)) =
          n * (t * 50 ^ (n + 1)) + t * 50 ^ (n + 1) := by ring
      omega

theorem exp_ge_scale (x : Nat) : SCALE_FACTOR ≤ exp_approx x := by
  unfold exp_approx
  split
  · exact le_rfl
  split
  · decide
  · exact le_exp_loop x 14 SCALE_FACTOR SCALE_FACTOR 1 1 scale_le_max

theorem exp_ne_zero (x : Nat) : exp_approx x ≠ 0 := by
  have h1 := exp_ge_scale x
  have h2 := scale_pos
  omega

theorem exp_le_max (x : Nat) : exp_approx x ≤ U256_MAX := by
  unfold exp_approx
  split
  · exact scale_le_max
  split
  · exact le_trans (Nat.div_le_self _ _) le_rfl
  · exact exp_loop_le_max x 14 SCALE_FACTOR SCALE_FACTOR 1 1 scale_le_max

theorem exp_mono {x1 x2 : Nat} (h : x1 ≤ x2) : exp_approx x1 ≤ exp_approx x2 := by
  by_cases h1 : x1 = 0
  · rw [show exp_approx x1 = SCALE_FACTOR by simp [exp_approx, h1]]
    exact exp_ge_scale x2
  have h2z : ¬ x2 = 0 := by omega
  by_cases h2 : satMul 50 SCALE_FACTOR < x1
  · have h2b : satMul 50 SCALE_FACTOR < x2 := lt_of_lt_of_le h2 h
    simp only [exp_approx]
    rw [if_neg h1, if_pos h2, if_neg h2z, if_pos h2b]
  · have hx1le : x1 ≤ 50 * SCALE_FACTOR := by
      rw [satmul_50_scale] at h2
      omega
    by_cases h3 : satMul 50 SCALE_FACTOR < x2
    · simp only [exp_approx]
      rw [if_neg h1, if_neg h2, if_neg h2z, if_pos h3]
      have hb := exp_loop_bound x1 hx1le 14 SCALE_FACTOR SCALE_FACTOR 1 1 (by decide)
      exact le_trans hb (by decide)
    · simp only [exp_approx]
      rw [if_neg h1, if_neg h2, if_neg h2z, if_neg h3]
      exact exp_loop_mono x1 x2 h 14 1 _ _ _ _ 1 1 le_rfl le_rfl scale_le_max

/-! ### Shape and monotonicity of `calculate_sigmoid_price` -/

theorem exp_zero_if (a b c : Nat) : (if exp_approx c = 0 then a else b) = b :=
  if_neg (exp_ne_zero c)

theorem satSub_anti_right (a : Nat) {b1 b2 : Nat} (h : b1 ≤ b2) :
    satSub a b2 ≤ satSub a b1 := by
  unfold satSub
  omega

theorem satSub_mono_left {a1 a2 : Nat} (b : Nat) (h : a1 ≤ a2) :
    satSub a1 b ≤ satSub a2 b := by
  unfold satSub
  omega

theorem scale_le_satAdd_scale (y : Nat) : SCALE_FACTOR ≤ satAdd SCALE_FACTOR y :=
  le_min (Nat.le_add_right _ _) scale_le_max

theorem denom4_ge_two_scale (e : Nat) (he : SCALE_FACTOR ≤ e) :
    2 * SCALE_FACTOR ≤ satAdd SCALE_FACTOR e := by
  unfold satAdd
  apply le_min
  · omega
  · decide

theorem dfp_scale_le_scale (e : Nat) (he : SCALE_FACTOR ≤ e) :
    divide_fixed_point SCALE_FACTOR e ≤ SCALE_FACTOR := by
  have hez : e ≠ 0 := by have := scale_pos; omega
  rw [dfp_scale_num e hez]
  calc SCALE_FACTOR * SCALE_FACTOR / e
      ≤ SCALE_FACTOR * SCALE_FACTOR / SCALE_FACTOR := Nat.div_le_div_left he scale_pos
    _ = SCALE_FACTOR := Nat.mul_div_cancel _ scale_pos

theorem denom5_le_two_scale (e : Nat) (he : SCALE_FACTOR ≤ e) :
    satAdd SCALE_FACTOR (divide_fixed_point SCALE_FACTOR e) ≤ 2 * SCALE_FACTOR := by
  have h1 := dfp_scale_le_scale e he
  have h2 := satAdd_le_sum SCALE_FACTOR (divide_fixed_point SCALE_FACTOR e)
  omega

theorem denom5_anti {e1 e2 : Nat} (he1 : SCALE_FACTOR ≤ e1) (h : e1 ≤ e2) :
    satAdd SCALE_FACTOR (divide_fixed_point SCALE_FACTOR e2) ≤
      satAdd SCALE_FACTOR (divide_fixed_point SCALE_FACTOR e1) := by
  have hp := scale_pos
  have h1 : e1 ≠ 0 := by omega
  have h2 : e2 ≠ 0 := by omega
  rw [dfp_scale_num e1 h1, dfp_scale_num e2 h2]
  exact satAdd_mono le_rfl (Nat.div_le_div_left h (by omega))

theorem pct_eq (s ts : Nat) (hcap : s ≤ U256_MAX / SCALE_FACTOR ^ 2) (hts : ts ≠ 0) :
    divide_fixed_point (satMul s SCALE_FACTOR) ts =
      s * SCALE_FACTOR * SCALE_FACTOR / ts := by
  have h1 : s * SCALE_FACTOR ≤ U256_MAX / SCALE_FACTOR := by
    calc s * SCALE_FACTOR
        ≤ U256_MAX / SCALE_FACTOR ^ 2 * SCALE_FACTOR := Nat.mul_le_mul_right _ hcap
      _ = U256_MAX / SCALE_FACTOR / SCALE_FACTOR * SCALE_FACTOR := by
          rw [pow_two, ← Nat.div_div_eq_div_mul]
      _ ≤ U256_MAX / SCALE_FACTOR := Nat.div_mul_le_self _ _
  have h2 : satMul s SCALE_FACTOR = s * SCALE_FACTOR :=
    satMul_eq _ _ (le_trans h1 (Nat.div_le_self _ _))
  rw [h2]
  exact dfp_precise _ ts h1 hts

theorem price_shape (supply : Nat) (params : CurveParameters)
    (hs : supply ≠ 0) (hts : params.total_supply ≠ 0) :
    calculate_sigmoid_price supply params =
      if divide_fixed_point (satMul supply SCALE_FACTOR) params.total_supply <
          params.midpoint then
        satAdd params.initial_price
          (divide_fixed_point
            (satSub (multiply_fixed_point params.initial_price params.max_price_factor)
              params.initial_price)
            (satAdd SCALE_FACTOR
              (exp_approx (multiply_fixed_point params.steepness
                (satSub params.midpoint
                  (divide_fixed_point (satMul supply SCALE_FACTOR) params.total_supply))))))
      else
        satAdd params.initial_price
          (divide_fixed_point
            (satSub (multiply_fixed_point params.initial_price params.max_price_factor)
              params.initial_price)
            (satAdd SCALE_FACTOR
              (divide_fixed_point SCALE_FACTOR
                (exp_approx (multiply_fixed_point params.steepness
                  (satSub (divide_fixed_point (satMul supply SCALE_FACTOR)
                      params.total_supply)
                    params.midpoint)))))) := by
  simp only [calculate_sigmoid_price, hs, hts, exp_zero_if, if_false]

theorem ip_le_price (supply : Nat) (params : CurveParameters)
    (hip : params.initial_price ≤ U256_MAX) :
    params.initial_price ≤ calculate_sigmoid_price supply params := by
  unfold calculate_sigmoid_price
  split
  · exact le_rfl
  · dsimp only
    split <;> split <;> exact le_satAdd_left _ _ hip

theorem calculate_sigmoid_price_monotone (params : CurveParameters) (s1 s2 : Nat)
    (hip : 0 < params.initial_price) (hipmax : params.initial_price ≤ U256_MAX)
    (hts : 0 < params.total_supply) (h12 : s1 < s2) (hs2ts : s2 ≤ params.total_supply)
    (hcap : s2 ≤ U256_MAX / SCALE_FACTOR ^ 2) :
    calculate_sigmoid_price s1 params ≤ calculate_sigmoid_price s2 params := by
  have htsz : params.total_supply ≠ 0 := by omega
  by_cases hs1 : s1 = 0
  · rw [hs1, show calculate_sigmoid_price 0 params = params.initial_price from rfl]
    exact ip_le_price s2 params hipmax
  · have hs2 : s2 ≠ 0 := by omega
    have hcap1 : s1 ≤ U256_MAX / SCALE_FACTOR ^ 2 := by omega
    rw [price_shape s1 params hs1 htsz, price_shape s2 params hs2 htsz]
    have hpct : divide_fixed_point (satMul s1 SCALE_FACTOR) params.total_supply ≤
        divide_fixed_point (satMul s2 SCALE_FACTOR) params.total_supply := by
      rw [pct_eq s1 _ hcap1 htsz, pct_eq s2 _ hcap htsz]
      exact Nat.div_le_div_right
        (Nat.mul_le_mul_right _ (Nat.mul_le_mul_right _ (by omega)))
    set p1 := divide_fixed_point (satMul s1 SCALE_FACTOR) params.total_supply
    set p2 := divide_fixed_point (satMul s2 SCALE_FACTOR) params.total_supply
    set range := satSub (multiply_fixed_point params.initial_price params.max_price_factor)
      params.initial_price with hrangedef
    have hrangemax : range ≤ U256_MAX := by
      rw [hrangedef]
      unfold satSub
      exact le_trans (Nat.sub_le _ _) (mulfp_le_max _ _)
    by_cases hb1 : p1 < params.midpoint
    · rw [if_pos hb1]
      by_cases hb2 : p2 < params.midpoint
      · rw [if_pos hb2]
        have hd : satSub params.midpoint p2 ≤ satSub params.midpoint p1 :=
          satSub_anti_right _ hpct
        have hexp := exp_mono (mulfp_mono_right params.steepness hd)
        have hden := satAdd_mono (le_refl SCALE_FACTOR) hexp
        exact satAdd_mono le_rfl
          (dfp_anti range hrangemax (scale_le_satAdd_scale _) hden)
      · rw [if_neg hb2]
        have hge : 2 * SCALE_FACTOR ≤
            satAdd SCALE_FACTOR (exp_approx (multiply_fixed_point params.steepness
              (satSub params.midpoint p1))) :=
          denom4_ge_two_scale _ (exp_ge_scale _)
        have hle : satAdd SCALE_FACTOR (divide_fixed_point SCALE_FACTOR
            (exp_approx (multiply_fixed_point params.steepness
              (satSub p2 params.midpoint)))) ≤ 2 * SCALE_FACTOR :=
          denom5_le_two_scale _ (exp_ge_scale _)
        exact satAdd_mono le_rfl
          (dfp_anti range hrangemax (scale_le_satAdd_scale _) (le_trans hle hge))
    · rw [if_neg hb1]
      have hb2 : ¬ p2 < params.midpoint := by omega
      rw [if_neg hb2]
      have hd : satSub p1 params.midpoint ≤ satSub p2 params.midpoint :=
        satSub_mono_left _ hpct
      have hexp := exp_mono (mulfp_mono_right params.steepness hd)
      have hden := denom5_anti (exp_ge_scale _) hexp
      exact satAdd_mono le_rfl
        (dfp_anti range hrangemax (scale_le_satAdd_scale _) hden)

/-! ### Refinement of `exp_approx` against the specification -/

theorem exp_spec_loop_eq (x : Nat) (fuel : Nat) :
    ∀ term result fact i,
      exp_loop x term result fact i fuel = exp_spec_loop x term result i fuel := by
  induction fuel with
  | zero => intro t r f i; rfl
  | succ n ih =>
    intro t r f i
    simp only [exp_loop, exp_spec_loop]
    rw [show MILLION = 1000000 from rfl]
    split
    · rfl
    · exact ih _ _ _ _

/-! ### Refinement of `find_token_amount_for_weth` against the specification -/

theorem find_loop_eq_spec (cs wa : Nat) (params : CurveParameters) (sel : Bool)
    (fuel : Nat) :
    ∀ mn mx, mn ≤ mx → mx ≤ U256_MAX →
      find_loop cs wa params sel mn mx fuel =
        solve_spec_loop cs wa params sel mn mx fuel := by
  induction fuel with
  | zero => intro mn mx _ _; rfl
  | succ n ih =>
    intro mn mx hle hmax
    simp only [find_loop, solve_spec_loop]
    rw [show THOUSAND = 1000 from rfl, show TWO = 2 from rfl]
    simp only [satSub, satAdd]
    have hmidle : mn + (mx - mn) / 2 ≤ mx := by omega
    have hmid : min (mn + (mx - mn) / 2) U256_MAX = mn + (mx - mn) / 2 :=
      min_eq_left (le_trans hmidle hmax)
    by_cases hcol : mx = mn
    · rw [if_pos hcol]
      subst hcol
      have hmid0 : mx + (mx - mx) / 2 = mx := by omega
      rw [hmid0, if_pos (rfl : mx = mx), ite_self]
    · rw [if_neg hcol, hmid]
      set mid := mn + (mx - mn) / 2 with hmiddef
      set wn := calculate_weth_for_token_amount cs mid params sel with hwndef
      by_cases htol : (if wn ≥ wa then wn - wa else wa - wn) ≤ SCALE_FACTOR / 1000
      · rw [if_pos htol, if_pos htol]
      · rw [if_neg htol, if_neg htol, if_neg (show ¬ mn = mx by omega)]
        by_cases hlt : wn < wa
        · rw [if_pos hlt, if_pos hlt]
          exact ih mid mx hmidle hmax
        · rw [if_neg hlt, if_neg hlt]
          exact ih mn mid (by omega) (le_trans hmidle hmax)

theorem extract_ok (data : List Nat) (off : Nat) (h : off + 32 ≤ data.length) :
    extract_u256_from_bytes data off =
      .ok (beBytesToNat ((data.drop off).take 32)) := by
  unfold extract_u256_from_bytes
  rw [if_neg (by omega)]

/-! ### Claim theorems -/

/-- C1: the spec canonical conformance vector demands price
5.5 * 10^18 at `supply = 500000 * 10^18` with the stated parameters;
the code instead returns 10 * 10^18 (its `percentage_sold` is scaled
by 10^36 rather than 10^18, so the midpoint supply lands far past the
midpoint with a saturated exponential).  At `supply = 0` it does
return 1.0 fixed-point as claimed. -/
theorem C1_midpoint_vector_eval :
    calculate_sigmoid_price (500000 * SCALE_FACTOR)
        ⟨SCALE_FACTOR, 10 * SCALE_FACTOR, 10 * SCALE_FACTOR, SCALE_FACTOR / 2,
          1000000 * SCALE_FACTOR⟩ = 10 * SCALE_FACTOR ∧
    calculate_sigmoid_price 0
        ⟨SCALE_FACTOR, 10 * SCALE_FACTOR, 10 * SCALE_FACTOR, SCALE_FACTOR / 2,
          1000000 * SCALE_FACTOR⟩ = SCALE_FACTOR ∧
    (10 * SCALE_FACTOR : Nat) ≠ 5500000000000000000 := by
  exact ⟨by decide, rfl, by decide⟩

/-- C2, counterexample: `calculate_sigmoid_price` is not monotone in
supply over the whole range `[0, total_supply]`: at the supply where
`divide_fixed_point` switches to its precision-losing overflow
fallback, the computed percentage drops and so does the price. -/
theorem C2_counterexample :
    ¬ (∀ (params : CurveParameters) (s1 s2 : Nat),
        0 < params.initial_price → 0 < params.total_supply →
        s1 < s2 → s2 ≤ params.total_supply →
        calculate_sigmoid_price s1 params ≤ calculate_sigmoid_price s2 params) := by
  intro h
  exact absurd
    (h paramsCex s0cex (s0cex + 1) (by decide) (by decide) (by decide) (by decide))
    (by decide)

/-- C2 (amended): for fixed parameters with positive `initial_price`
and `total_supply`, `calculate_sigmoid_price` is non-decreasing in
supply for all `s1 < s2` in `[0, total_supply]` provided `s2` stays at
or below `U256_MAX / SCALE_FACTOR^2`, the threshold beyond which the
scaled numerator of `divide_fixed_point` overflows into the lossy
fallback branch. -/
theorem C2_sigmoid_monotone (params : CurveParameters) (s1 s2 : Nat)
    (hip : 0 < params.initial_price) (hipmax : params.initial_price ≤ U256_MAX)
    (hts : 0 < params.total_supply) (h12 : s1 < s2)
    (hs2ts : s2 ≤ params.total_supply)
    (hcap : s2 ≤ U256_MAX / SCALE_FACTOR ^ 2) :
    calculate_sigmoid_price s1 params ≤ calculate_sigmoid_price s2 params :=
  calculate_sigmoid_price_monotone params s1 s2 hip hipmax hts h12 hs2ts hcap

/-- Witness for C2: the amended monotonicity theorem applied at a
small concrete instance. -/
theorem C2_witness :
    calculate_sigmoid_price 1
        ⟨SCALE_FACTOR, 10 * SCALE_FACTOR, 10 * SCALE_FACTOR, SCALE_FACTOR / 2,
          1000000 * SCALE_FACTOR⟩ ≤
      calculate_sigmoid_price 2
        ⟨SCALE_FACTOR, 10 * SCALE_FACTOR, 10 * SCALE_FACTOR, SCALE_FACTOR / 2,
          1000000 * SCALE_FACTOR⟩ :=
  C2_sigmoid_monotone _ 1 2 (by decide) (by decide) (by decide) (by decide)
    (by decide) (by decide)

/-- C3: `calculate_sigmoid_price 0` is exactly `initial_price` for
every parameter record, and selling the whole circulating supply
through `calculate_sell` reaches supply 0 without underflow and
reports `initial_price` as the resulting price (whenever the quote is
not refused for lack of collected liquidity). -/
theorem C3_price_floor_and_sell_to_zero (params : CurveParameters) (circ wc : Nat)
    (hip : params.initial_price ≠ 0) (hc : circ ≠ 0)
    (hliq : calculate_weth_for_token_amount circ circ params true ≤ wc) :
    (∀ q : CurveParameters, calculate_sigmoid_price 0 q = q.initial_price) ∧
    calculate_sell circ wc circ false params =
      .ok (calculate_weth_for_token_amount circ circ params true,
        params.initial_price) := by
  constructor
  · intro q
    rfl
  · unfold calculate_sell
    rw [if_neg (show ¬ false = true by simp)]
    rw [if_neg hc, if_neg hip, if_neg (lt_irrefl circ)]
    dsimp only
    rw [if_neg (not_lt.mpr hliq), Nat.sub_self]
    rfl

/-- Witness for C3 at a concrete pool state. -/
theorem C3_witness :
    calculate_sell SCALE_FACTOR (10 * SCALE_FACTOR) SCALE_FACTOR false
        ⟨SCALE_FACTOR, 10 * SCALE_FACTOR, 10 * SCALE_FACTOR, SCALE_FACTOR / 2,
          1000 * SCALE_FACTOR⟩ =
      .ok (calculate_weth_for_token_amount SCALE_FACTOR SCALE_FACTOR
          ⟨SCALE_FACTOR, 10 * SCALE_FACTOR, 10 * SCALE_FACTOR, SCALE_FACTOR / 2,
            1000 * SCALE_FACTOR⟩ true,
        SCALE_FACTOR) :=
  (C3_price_floor_and_sell_to_zero
    ⟨SCALE_FACTOR, 10 * SCALE_FACTOR, 10 * SCALE_FACTOR, SCALE_FACTOR / 2,
      1000 * SCALE_FACTOR⟩ SCALE_FACTOR (10 * SCALE_FACTOR)
    (by decide) (by decide) (by decide)).2

/-- C4: `exp_approx` computes exactly the specification reference
algorithm at every input: `SCALE` at 0, the `U256_MAX / 2` sentinel
past `50 * SCALE`, and otherwise the truncated 14-term series with
plain division by the iteration count and the `SCALE / 10^6` early
stop. -/
theorem C4_exp_approx_refines_spec : ∀ x : Nat, exp_approx x = exp_spec x := by
  intro x
  unfold exp_approx exp_spec
  rw [satmul_50_scale]
  by_cases h0 : x = 0
  · rw [if_pos h0, if_pos h0]
  rw [if_neg h0, if_neg h0]
  by_cases h1 : x > 50 * SCALE_FACTOR
  · rw [if_pos h1, if_pos h1]
    rfl
  · rw [if_neg h1, if_neg h1]
    exact exp_spec_loop_eq x 14 SCALE_FACTOR SCALE_FACTOR 1 1

/-- C5: `multiply_fixed_point` returns 0 when an operand is 0,
saturates to `U256_MAX` exactly when the 256-bit product overflows,
otherwise returns `a * b / SCALE`, and in particular saturates at
`(U256_MAX, 2)`. -/
theorem C5_multiply_fixed_point_saturating (a b : Nat)
    (ha : a ≤ U256_MAX) (hb : b ≤ U256_MAX) :
    ((a = 0 ∨ b = 0) → multiply_fixed_point a b = 0) ∧
    (U256_MAX < a * b → multiply_fixed_point a b = U256_MAX) ∧
    (a * b ≤ U256_MAX → multiply_fixed_point a b = a * b / SCALE_FACTOR) ∧
    multiply_fixed_point U256_MAX 2 = U256_MAX := by
  refine ⟨?_, ?_, ?_, by decide⟩
  · intro hz
    unfold multiply_fixed_point
    rw [if_pos hz]
  · intro hover
    have haz : a ≠ 0 := by
      intro hh
      rw [hh] at hover
      omega
    have hbz : b ≠ 0 := by
      intro hh
      rw [hh] at hover
      omega
    have hbpos : 0 < b := Nat.pos_of_ne_zero hbz
    rw [mulfp_pos_branch a b haz hbz,
      if_pos ((Nat.div_lt_iff_lt_mul hbpos).mpr hover)]
  · exact mulfp_eq_of_no_overflow a b

/-- Witness for C5 at a concrete in-range product. -/
theorem C5_witness :
    multiply_fixed_point (2 * SCALE_FACTOR) (3 * SCALE_FACTOR) =
      2 * SCALE_FACTOR * (3 * SCALE_FACTOR) / SCALE_FACTOR :=
  (C5_multiply_fixed_point_saturating (2 * SCALE_FACTOR) (3 * SCALE_FACTOR)
    (by decide) (by decide)).2.2.1 (by decide)

/-- C6: `find_token_amount_for_weth` coincides with the
specification bisection contract `solve_spec` — bracket
`[0, current_supply]` when selling and `[0, total_supply -
current_supply]` when buying, 100 iterations, tolerance
`SCALE / 1000` on the cost residual, returning `mid` on convergence,
the collapsed bracket value when `min == max`, and `min` on
exhaustion. -/
theorem C6_find_token_amount_refines_spec (cs wa : Nat) (params : CurveParameters)
    (sel : Bool) (hcs : cs ≤ U256_MAX) (hts : params.total_supply ≤ U256_MAX) :
    find_token_amount_for_weth cs wa params sel = solve_spec cs wa params sel := by
  cases sel
  · exact find_loop_eq_spec cs wa params false 100 0 (params.total_supply - cs)
      (Nat.zero_le _) (le_trans (Nat.sub_le _ _) hts)
  · exact find_loop_eq_spec cs wa params true 100 0 cs (Nat.zero_le _) hcs

/-- Witness for C6 at a concrete instance. -/
theorem C6_witness :
    find_token_amount_for_weth 5 3 ⟨1, 1, 1, 1, 7⟩ true =
      solve_spec 5 3 ⟨1, 1, 1, 1, 7⟩ true :=
  C6_find_token_amount_refines_spec 5 3 ⟨1, 1, 1, 1, 7⟩ true (by decide) (by decide)

set_option maxRecDepth 8000 in
/-- C7, counterexample: stored curve parameters are not immutable
under every exposed operation — the creation entry point has no
re-creation guard, so calling it again for an already-created pool
overwrites the stored parameters. -/
theorem C7_counterexample :
    ¬ (∀ (s : Store) (op : Op) (pid : Nat), s.initial_prices pid ≠ 0 →
        paramsAt (step s op) pid = paramsAt s pid) := by
  intro h
  have h1 : store1.initial_prices 0 ≠ 0 := by decide
  have h2 := h store1 (.opInitPool 7 0 bytesIpTwo) 0 h1
  have h3 : (step store1 (.opInitPool 7 0 bytesIpTwo)).initial_prices 0 =
      store1.initial_prices 0 := congrArg Prod.fst h2
  exact absurd h3 (by decide)

/-- C7 (amended): no exposed operation other than the creation entry
point itself modifies the stored curve parameters of any pool; only a
repeated authorized creation call can overwrite them. -/
theorem C7_params_immutable_except_create (s : Store) (op : Op) (pid : Nat)
    (h : op.isCreate = false) : paramsAt (step s op) pid = paramsAt s pid := by
  cases op <;> try rfl
  case opInitPool sender pid2 bs => simp [Op.isCreate] at h
  case opSetPoolStateManager sender new_psm =>
    simp only [step]
    split <;> rfl
  case opTransferOwnership sender new_owner =>
    simp only [step]
    split <;> rfl

/-- Witness for C7 at a concrete store and non-creation operation. -/
theorem C7_witness :
    paramsAt (step store0 (.opSetPoolStateManager 7 9)) 0 = paramsAt store0 0 :=
  C7_params_immutable_except_create store0 (.opSetPoolStateManager 7 9) 0 rfl

/-- C8: an authorized creation call fails exactly when the parameter
block is shorter than 160 bytes or the decoded `initial_price` or
`total_supply` is zero; a failed call leaves the storage entirely
unchanged; a successful call stores the five decoded big-endian
values, substituting the defaults 10.0, 10.0 and 0.5 fixed-point for
zero optional fields. -/
theorem C8_init_validation (s : Store) (pid : Nat) (bs : List Nat) :
    ((∃ e, init_pool s.owner s pid bs = .error e) ↔
      (bs.length < 160 ∨ beBytesToNat ((bs.drop 128).take 32) = 0 ∨
        beBytesToNat ((bs.drop 0).take 32) = 0)) ∧
    (∀ e, init_pool s.owner s pid bs = .error e →
      step s (.opInitPool s.owner pid bs) = s) ∧
    (∀ s2, init_pool s.owner s pid bs = .ok s2 →
      s2.initial_prices pid = beBytesToNat ((bs.drop 0).take 32) ∧
      s2.max_price_factors pid = (if beBytesToNat ((bs.drop 32).take 32) = 0
        then DEFAULT_MAX_PRICE_FACTOR else beBytesToNat ((bs.drop 32).take 32)) ∧
      s2.steepness_values pid = (if beBytesToNat ((bs.drop 64).take 32) = 0
        then DEFAULT_STEEPNESS else beBytesToNat ((bs.drop 64).take 32)) ∧
      s2.midpoints pid = (if beBytesToNat ((bs.drop 96).take 32) = 0
        then DEFAULT_MIDPOINT else beBytesToNat ((bs.drop 96).take 32)) ∧
      s2.total_supplies pid = beBytesToNat ((bs.drop 128).take 32)) := by
  have howner : ¬ s.owner ≠ s.owner := not_not_intro rfl
  by_cases hlen : bs.length < 160
  · have herr : init_pool s.owner s pid bs = .error .badParamsLength := by
      unfold init_pool
      rw [if_neg howner, if_pos hlen]
    refine ⟨⟨fun _ => Or.inl hlen, fun _ => ⟨.badParamsLength, herr⟩⟩, ?_, ?_⟩
    · intro e _
      simp only [step]
      rw [herr]
    · intro s2 hs2
      rw [herr] at hs2
      exact absurd hs2 (by simp)
  · have e0 := extract_ok bs 0 (by omega)
    have e32 := extract_ok bs 32 (by omega)
    have e64 := extract_ok bs 64 (by omega)
    have e96 := extract_ok bs 96 (by omega)
    have e128 := extract_ok bs 128 (by omega)
    by_cases hz : beBytesToNat ((bs.drop 128).take 32) = 0 ∨
        beBytesToNat ((bs.drop 0).take 32) = 0
    · have herr : init_pool s.owner s pid bs = .error .zeroParams := by
        unfold init_pool
        rw [if_neg howner, if_neg hlen, e0, e32, e64, e96, e128]
        dsimp only
        rw [if_pos hz]
      refine ⟨⟨fun _ => Or.inr hz, fun _ => ⟨.zeroParams, herr⟩⟩, ?_, ?_⟩
      · intro e _
        simp only [step]
        rw [herr]
      · intro s2 hs2
        rw [herr] at hs2
        exact absurd hs2 (by simp)
    · have hok : init_pool s.owner s pid bs = .ok
          { s with
            initial_prices := fun p => if p = pid
              then beBytesToNat ((bs.drop 0).take 32) else s.initial_prices p
            max_price_factors := fun p => if p = pid
              then (if beBytesToNat ((bs.drop 32).take 32) = 0
                then DEFAULT_MAX_PRICE_FACTOR else beBytesToNat ((bs.drop 32).take 32))
              else s.max_price_factors p
            steepness_values := fun p => if p = pid
              then (if beBytesToNat ((bs.drop 64).take 32) = 0
                then DEFAULT_STEEPNESS else beBytesToNat ((bs.drop 64).take 32))
              else s.steepness_values p
            midpoints := fun p => if p = pid
              then (if beBytesToNat ((bs.drop 96).take 32) = 0
                then DEFAULT_MIDPOINT else beBytesToNat ((bs.drop 96).take 32))
              else s.midpoints p
            total_supplies := fun p => if p = pid
              then beBytesToNat ((bs.drop 128).take 32) else s.total_supplies p } := by
        unfold init_pool
        rw [if_neg howner, if_neg hlen, e0, e32, e64, e96, e128]
        dsimp only
        rw [if_neg hz]
      refine ⟨⟨?_, ?_⟩, ?_, ?_⟩
      · intro he
        obtain ⟨e, he⟩ := he
        rw [hok] at he
        exact absurd he (by simp)
      · intro hcontra
        rcases hcontra with hh | hh
        · exact absurd hh hlen
        · exact absurd hh hz
      · intro e he
        rw [hok] at he
        exact absurd he (by simp)
      · intro s2 hs2
        rw [hok] at hs2
        injection hs2 with hs2
        subst hs2
        refine ⟨?_, ?_, ?_, ?_, ?_⟩ <;> simp

/-- Witness for C8 at a concrete store and parameter block. -/
theorem C8_witness :
    (∃ e, init_pool store0.owner store0 0 [] = .error e) ∧
    (∀ s2, init_pool store0.owner store0 0 bytesIpOne = .ok s2 →
      s2.initial_prices 0 = beBytesToNat ((bytesIpOne.drop 0).take 32)) :=
  ⟨(C8_init_validation store0 0 []).1.mpr (Or.inl (by decide)),
   fun s2 hs2 => ((C8_init_validation store0 0 bytesIpOne).2.2 s2 hs2).1⟩

/-- C9: with stored parameters and a non-transitioned pool,
`calculate_buy` refuses a zero monetary amount with `InvalidAmount`,
and `calculate_sell` reports `InvalidAmount` exactly when the asset
amount is zero or exceeds the circulating supply. -/
theorem C9_invalid_amount (circ wc ta : Nat) (params : CurveParameters)
    (hip : params.initial_price ≠ 0) :
    calculate_buy circ 0 false params = .error .invalidAmount ∧
    (calculate_sell circ wc ta false params = .error .invalidAmount ↔
      ta = 0 ∨ circ < ta) := by
  constructor
  · simp [calculate_buy]
  · unfold calculate_sell
    rw [if_neg (show ¬ false = true by simp)]
    by_cases h0 : ta = 0
    · rw [if_pos h0]
      simp [h0]
    · rw [if_neg h0, if_neg hip]
      by_cases hgt : circ < ta
      · rw [if_pos hgt]
        simp [hgt]
      · rw [if_neg hgt]
        dsimp only
        split
        · exact iff_of_false (by simp) (by omega)
        · exact iff_of_false (by simp) (by omega)

/-- Witness for C9 at concrete pool states. -/
theorem C9_witness :
    calculate_buy 5 0 false ⟨1, 1, 1, 1, 1⟩ = .error .invalidAmount ∧
    calculate_sell 5 0 6 false ⟨1, 1, 1, 1, 1⟩ = .error .invalidAmount :=
  ⟨(C9_invalid_amount 5 0 6 ⟨1, 1, 1, 1, 1⟩ (by decide)).1,
   (C9_invalid_amount 5 0 6 ⟨1, 1, 1, 1, 1⟩ (by decide)).2.mpr (by decide)⟩

/-- C10: when the circulating supply is zero, `calculate_buy` skips
the cost integral and bisection and returns
`divide_fixed_point(weth_amount, initial_price)` tokens with reported
resulting price exactly `initial_price`, for every positive
`weth_amount` — the reported price ignores the supply increase from
the purchase. -/
theorem C10_first_buy (params : CurveParameters) (w : Nat) (hw : w ≠ 0)
    (hip : params.initial_price ≠ 0) :
    calculate_buy 0 w false params =
      .ok (divide_fixed_point w params.initial_price, params.initial_price) := by
  unfold calculate_buy
  rw [if_neg (show ¬ false = true by simp), if_neg hw, if_neg hip, if_pos rfl]

/-- Witness for C10 at a concrete first purchase. -/
theorem C10_witness :
    calculate_buy 0 (2 * SCALE_FACTOR) false
        ⟨SCALE_FACTOR, 10 * SCALE_FACTOR, 10 * SCALE_FACTOR, SCALE_FACTOR / 2,
          1000 * SCALE_FACTOR⟩ =
      .ok (divide_fixed_point (2 * SCALE_FACTOR) SCALE_FACTOR, SCALE_FACTOR) :=
  C10_first_buy
    ⟨SCALE_FACTOR, 10 * SCALE_FACTOR, 10 * SCALE_FACTOR, SCALE_FACTOR / 2,
      1000 * SCALE_FACTOR⟩ (2 * SCALE_FACTOR) (by decide) (by decide)

end PumpUp
